import Mathlib

/-!
Verification of the binding-affinity prediction pipeline of BioStructX
(`src/binding_affinity_predictor.py`).

The module is a thin orchestration layer: it resolves the ligand and protein
text inputs, calls an external RDKit descriptor endpoint and the Biopython
`ProteinAnalysis` class, concatenates the two descriptor vectors, feeds them
to a pre-trained random-forest regressor, and maps the negated prediction to
a qualitative label.

The shallow embedding below mirrors that control flow.  Numeric values are
modelled as rationals.  The three external collaborators are opaque in the
source and are therefore parameters of the embedding:
  * the RDKit HTTP endpoint is a function from the request payload to an
    `HttpResult` (transport failure or a status code with a JSON body);
  * the Biopython analyzer is a function from a sequence to an optional
    record of the five descriptor methods, `none` modelling a raised
    exception (the body of `extract_protein_features` is wrapped in a bare
    `try/except` that turns any exception into `None`);
  * the regression model is a function from the feature vector to a scalar;
  * the ChEMBL and UniProt lookups are functions returning an optional
    string (`None` modelling a failed fetch).
-/

set_option autoImplicit false

namespace BioStructX

/-- A JSON object body as returned by the RDKit descriptor endpoint:
a finite map from field names to numbers, modelled as an association list.
Only the presence of the "error" key is inspected by the code, so its
value needs no separate representation. -/
structure Json where
  fields : List (String × ℚ)
deriving DecidableEq

/-- Python dict lookup `props.get(key, default)`: the value at the first
matching key, or the default. -/
def Json.get (j : Json) (k : String) (d : ℚ) : ℚ :=
  match j.fields.find? (fun p => p.1 == k) with
  | some p => p.2
  | none => d

/-- Python dict key membership `key in props`. -/
def Json.hasKey (j : Json) (k : String) : Bool :=
  j.fields.any (fun p => p.1 == k)

/-- Outcome of the single `requests.post` call to the RDKit endpoint:
either a transport-level exception or an HTTP response with a status code
and a JSON body. -/
inductive HttpResult where
  | transportError
  | response (status : Nat) (body : Json)
deriving DecidableEq

/-- The external RDKit endpoint, keyed by the request payload.  The payload
is `Option String` because the page can pass `None` as the SMILES value
when a ChEMBL resolution failed upstream. -/
abbrev RdkitProvider := Option String → HttpResult

/-- Source function `get_rdkit_properties` (lines 16-23): POST the SMILES to the endpoint;
return the JSON body on status 200, `None` on any other status or on any
exception. -/
def get_rdkit_properties (provider : RdkitProvider) (smiles : Option String) :
    Option Json :=
  match provider smiles with
  | .transportError => none
  | .response status body => if status = 200 then some body else none

/-- Source function `extract_ligand_features` (lines 39-48): fail when the provider call
failed or the body carries an "error" key; otherwise the 4-vector
[MolWt, LogP, TPSA, NumRotatableBonds], each field defaulting to 0. -/
def extract_ligand_features (provider : RdkitProvider) (smiles : Option String) :
    Option (List ℚ) :=
  match get_rdkit_properties provider smiles with
  | none => none
  | some props =>
    if props.hasKey "error" then none
    else some [props.get "MolWt" 0, props.get "LogP" 0,
               props.get "TPSA" 0, props.get "NumRotatableBonds" 0]

/-- The record of the five Biopython `ProteinAnalysis` descriptor methods
used by the page, in source order. -/
structure ProteinAnalysisOutcome where
  molecular_weight : ℚ
  aromaticity : ℚ
  instability_index : ℚ
  isoelectric_point : ℚ
  gravy : ℚ
deriving DecidableEq

/-- The external Biopython computation: `none` models the construction or
one of the five method calls raising an exception. -/
abbrev Analyzer := String → Option ProteinAnalysisOutcome

/-- Source function `extract_protein_features` (lines 50-61): the 5-vector
[molecular_weight, aromaticity, instability_index, isoelectric_point,
gravy], or `None` when the computation raises. -/
def extract_protein_features (A : Analyzer) (sequence : String) :
    Option (List ℚ) :=
  match A sequence with
  | none => none
  | some a => some [a.molecular_weight, a.aromaticity, a.instability_index,
                    a.isoelectric_point, a.gravy]

/-- The page passes `seq` to `extract_protein_features` even when input
resolution left it as `None`; `ProteinAnalysis(None)` raises, so the
result is `None` in that case. -/
def extract_protein_features_opt (A : Analyzer) (seq : Option String) :
    Option (List ℚ) :=
  match seq with
  | none => none
  | some s => extract_protein_features A s

/-- The pre-trained regression model, opaque: one scalar per feature
vector (`rf_model.predict(combined)[0]`). -/
abbrev Model := List ℚ → ℚ

/-- Outcome of pressing the predict button: the error message shown, or
the reported `predicted_energy`. -/
inductive PredictOutcome where
  | invalidLigand
  | invalidProtein
  | ok (predicted_energy : ℚ)
deriving DecidableEq

/-- The body of the predict button (lines 150-161): report "Invalid
SMILES" when ligand extraction failed, else "Invalid protein sequence"
when protein extraction failed, else concatenate the descriptors, call
the model once and negate its output. -/
def predict_button (model : Model)
    (ligand_features protein_features : Option (List ℚ)) : PredictOutcome :=
  match ligand_features with
  | none => .invalidLigand
  | some lf =>
    match protein_features with
    | none => .invalidProtein
    | some pf => .ok (-(model (lf ++ pf)))

/-- The qualitative label (lines 163-168).  The emoji prefixes of the
source strings are omitted. -/
def comment (predicted_energy : ℚ) : String :=
  if predicted_energy ≤ -10 then "Strong binding"
  else if predicted_energy ≤ -8 then "Good binding"
  else if predicted_energy ≤ -6 then "Weak binding"
  else "Poor binding"

/-- Python `str.strip()`, for whitespace: remove leading and trailing
whitespace characters. -/
def pyStrip (s : String) : String :=
  String.mk (((s.data.dropWhile Char.isWhitespace).reverse.dropWhile
    Char.isWhitespace).reverse)

/-- Split a character list at every occurrence of the separator. -/
def splitOnChar (c : Char) : List Char → List (List Char)
  | [] => [[]]
  | x :: xs =>
    if x = c then [] :: splitOnChar c xs
    else
      match splitOnChar c xs with
      | [] => [[x]]
      | y :: ys => (x :: y) :: ys

/-- Python `str.splitlines()`, with line boundaries modelled as the
newline character: the empty string yields no lines and a trailing
newline produces no trailing empty line. -/
def pySplitlines (s : String) : List String :=
  if s.data = [] then []
  else
    let parts := splitOnChar '\n' s.data
    (if s.data.getLast? = some '\n' then parts.dropLast else parts).map String.mk

/-- Source function `clean_sequence` (lines 63-67): strip the text; when the first line
is a FASTA header, join the remaining lines; otherwise return the
stripped text. -/
def clean_sequence (seq_text : String) : String :=
  match pySplitlines (pyStrip seq_text) with
  | [] => pyStrip seq_text
  | first :: rest =>
    if first.startsWith ">" then String.join rest
    else pyStrip seq_text

/-- Python `str.upper()`. -/
def pyUpper (s : String) : String := s.toUpper

/-- Ligand input resolution (lines 111-118): inputs starting with
"CHEMBL" (case-insensitively) are resolved through the ChEMBL lookup,
which can fail; anything else is stripped and used as the SMILES. -/
def resolve_ligand_input (chembl : String → Option String)
    (ligand_input : String) : Option String :=
  if (pyUpper ligand_input).startsWith "CHEMBL" then chembl (pyUpper ligand_input)
  else some (pyStrip ligand_input)

/-- Which path the protein input resolution (lines 134-147) took, with
the resulting sequence value. -/
inductive ProteinRoute where
  | fileError
  | fromFile (seq : String)
  | fromUniprot (accession : String) (result : Option String)
  | direct (seq : String)
deriving DecidableEq

/-- Protein input resolution (lines 134-147).  `protein_file` is
`some (some content)` for an uploaded file that decodes, `some none`
for one whose read/decode raises, `none` when no file is uploaded.
With no file, a truthy (non-empty) text whose stripped form has at most
10 characters is sent to the UniProt lookup; otherwise the text is
cleaned and used directly. -/
def resolve_protein_input (uniprot : String → Option String)
    (protein_file : Option (Option String)) (protein_input : String) :
    ProteinRoute :=
  match protein_file with
  | some (some content) => .fromFile (clean_sequence content)
  | some none => .fileError
  | none =>
    if protein_input ≠ "" ∧ (pyStrip protein_input).length ≤ 10 then
      .fromUniprot (pyStrip protein_input) (uniprot (pyStrip protein_input))
    else
      .direct (clean_sequence protein_input)

/-- The sequence value held in `seq` after input resolution (`None` on a
file error or a failed UniProt fetch). -/
def seqOfRoute : ProteinRoute → Option String
  | .fileError => none
  | .fromFile s => some s
  | .fromUniprot _ r => r
  | .direct s => some s

/-- Result of one run of the page script. -/
inductive PageResult where
  | modelUnavailable
  | interactive (outcome : Option PredictOutcome)
deriving DecidableEq

/-- Source function `load_binding_affinity_predictor` (lines 25-193): when the model
artifact file is missing, `st.stop()` halts the script right after the
error message; otherwise the inputs are resolved and, if the predict
button was pressed, the prediction flow runs. -/
def load_binding_affinity_predictor (model_exists : Bool) (model : Model)
    (chembl : String → Option String) (provider : RdkitProvider)
    (A : Analyzer) (uniprot : String → Option String)
    (ligand_input : String) (protein_file : Option (Option String))
    (protein_input : String) (button_pressed : Bool) : PageResult :=
  match model_exists with
  | false => .modelUnavailable
  | true =>
    let smiles := resolve_ligand_input chembl ligand_input
    let seq := seqOfRoute (resolve_protein_input uniprot protein_file protein_input)
    match button_pressed with
    | false => .interactive none
    | true =>
      .interactive (some (predict_button model
        (extract_ligand_features provider smiles)
        (extract_protein_features_opt A seq)))

/-- C1: the qualitative label follows the fixed threshold table with
boundaries inclusive on the more-negative side: `e <= -10` is "strong",
`-10 < e <= -8` is "good", `-8 < e <= -6` is "weak", `e > -6` is "poor";
in particular -10.00 is "strong", -9.99 and -8.00 are "good", -7.99 and
-6.00 are "weak", and -5.99 is "poor". -/
theorem comment_threshold_table (e : ℚ) :
    (e ≤ -10 → comment e = "Strong binding") ∧
    (-10 < e → e ≤ -8 → comment e = "Good binding") ∧
    (-8 < e → e ≤ -6 → comment e = "Weak binding") ∧
    (-6 < e → comment e = "Poor binding") ∧
    comment (-10) = "Strong binding" ∧
    comment (-999/100) = "Good binding" ∧
    comment (-8) = "Good binding" ∧
    comment (-799/100) = "Weak binding" ∧
    comment (-6) = "Weak binding" ∧
    comment (-599/100) = "Poor binding" := by
  unfold comment
  refine ⟨fun h => by rw [if_pos h], fun h1 h2 => ?_, fun h1 h2 => ?_,
    fun h => ?_, by norm_num, by norm_num, by norm_num, by norm_num,
    by norm_num, by norm_num⟩
  · rw [if_neg (by linarith), if_pos h2]
  · rw [if_neg (by linarith), if_neg (by linarith), if_pos h2]
  · rw [if_neg (by linarith), if_neg (by linarith), if_neg (by linarith)]

/-- Witness for C1 at concrete energies in each band. -/
theorem comment_threshold_table_witness :
    comment (-12) = "Strong binding" ∧ comment (-9) = "Good binding" ∧
    comment (-7) = "Weak binding" ∧ comment (-3) = "Poor binding" :=
  ⟨(comment_threshold_table (-12)).1 (by norm_num),
   (comment_threshold_table (-9)).2.1 (by norm_num) (by norm_num),
   (comment_threshold_table (-7)).2.2.1 (by norm_num) (by norm_num),
   (comment_threshold_table (-3)).2.2.2.1 (by norm_num)⟩

/-- C2: on two successful extractions the reported energy is exactly the
negation of the model's raw prediction on the feature vector, and the
model is consulted only through that one prediction: two models agreeing
on the feature vector give the same outcome. -/
theorem affinity_is_negated_prediction (m₁ m₂ : Model) (lf pf : List ℚ)
    (h : m₁ (lf ++ pf) = m₂ (lf ++ pf)) :
    predict_button m₁ (some lf) (some pf) = .ok (-(m₁ (lf ++ pf))) ∧
    predict_button m₁ (some lf) (some pf) = predict_button m₂ (some lf) (some pf) :=
  ⟨rfl, by simp [predict_button, h]⟩

/-- Witness for C2 with a concrete constant model. -/
theorem affinity_is_negated_prediction_witness :
    predict_button (fun _ => (2 : ℚ)) (some [1, 2, 3, 4]) (some [5, 6, 7, 8, 9]) =
      .ok (-2) :=
  (affinity_is_negated_prediction (fun _ => 2) (fun _ => 2)
    [1, 2, 3, 4] [5, 6, 7, 8, 9] rfl).1

/-- C3: the vector passed to the model is the ligand descriptor followed
by the protein descriptor, 9 scalars in fixed order. -/
theorem feature_vector_is_ligand_then_protein (m : Model) (lf pf : List ℚ)
    (h4 : lf.length = 4) (h5 : pf.length = 5) :
    predict_button m (some lf) (some pf) = .ok (-(m (lf ++ pf))) ∧
    (lf ++ pf).length = 9 ∧
    (lf ++ pf).take 4 = lf ∧ (lf ++ pf).drop 4 = pf := by
  refine ⟨rfl, by simp [h4, h5], ?_, ?_⟩
  · rw [← h4]; exact List.take_left lf pf
  · rw [← h4]; exact List.drop_left lf pf

/-- Witness for C3 at a concrete 4-vector and 5-vector. -/
theorem feature_vector_is_ligand_then_protein_witness :
    predict_button (fun _ => (0 : ℚ)) (some [1, 2, 3, 4]) (some [5, 6, 7, 8, 9]) =
      .ok (-0) ∧ (([1, 2, 3, 4] : List ℚ) ++ [5, 6, 7, 8, 9]).length = 9 :=
  ⟨(feature_vector_is_ligand_then_protein (fun _ => 0) [1, 2, 3, 4] [5, 6, 7, 8, 9]
      rfl rfl).1,
   (feature_vector_is_ligand_then_protein (fun _ => 0) [1, 2, 3, 4] [5, 6, 7, 8, 9]
      rfl rfl).2.1⟩

/-- C4: when either extraction failed, the model is never invoked (the
outcome does not depend on the model), the outcome names a side that did
fail (ligand first, protein otherwise), and a prediction is produced only
when both extractions succeed. -/
theorem no_prediction_on_extraction_failure (lf pf : Option (List ℚ))
    (h : lf = none ∨ pf = none) :
    (∀ m₁ m₂ : Model, predict_button m₁ lf pf = predict_button m₂ lf pf) ∧
    (lf = none → ∀ m : Model, predict_button m lf pf = .invalidLigand) ∧
    (lf ≠ none → pf = none → ∀ m : Model, predict_button m lf pf = .invalidProtein) ∧
    (∀ (m : Model) (e : ℚ), predict_button m lf pf ≠ .ok e) := by
  cases lf <;> cases pf <;> simp_all [predict_button]

/-- Witness for C4: failed ligand extraction is reported as the ligand
side and yields no prediction. -/
theorem no_prediction_on_extraction_failure_witness :
    predict_button (fun _ => (0 : ℚ)) none (some [1]) = .invalidLigand ∧
    predict_button (fun _ => (0 : ℚ)) (some [1]) none = .invalidProtein :=
  ⟨(no_prediction_on_extraction_failure none (some [1]) (Or.inl rfl)).2.1 rfl
      (fun _ => 0),
   (no_prediction_on_extraction_failure (some [1]) none (Or.inr rfl)).2.2.1
      (by simp) rfl (fun _ => 0)⟩

/-- C5: ligand extraction makes one request and either returns the fixed
4-vector [MolWt, LogP, TPSA, NumRotatableBonds] read off an accepted
200-response, or fails: any transport error, any non-200 status and any
body carrying an "error" key all map to failure, and every success is a
4-element vector. -/
theorem ligand_extraction_contract (provider : RdkitProvider)
    (smiles : Option String) :
    (provider smiles = .transportError →
      extract_ligand_features provider smiles = none) ∧
    (∀ status body, provider smiles = .response status body → status ≠ 200 →
      extract_ligand_features provider smiles = none) ∧
    (∀ body, provider smiles = .response 200 body → body.hasKey "error" = true →
      extract_ligand_features provider smiles = none) ∧
    (∀ body, provider smiles = .response 200 body → body.hasKey "error" = false →
      extract_ligand_features provider smiles =
        some [body.get "MolWt" 0, body.get "LogP" 0, body.get "TPSA" 0,
              body.get "NumRotatableBonds" 0]) ∧
    (∀ v, extract_ligand_features provider smiles = some v → v.length = 4) := by
  refine ⟨fun h => ?_, fun status body h hs => ?_, fun body h he => ?_,
    fun body h he => ?_, fun v hv => ?_⟩
  · simp [extract_ligand_features, get_rdkit_properties, h]
  · simp [extract_ligand_features, get_rdkit_properties, h, hs]
  · simp [extract_ligand_features, get_rdkit_properties, h, he]
  · simp [extract_ligand_features, get_rdkit_properties, h, he]
  · unfold extract_ligand_features at hv
    cases hg : get_rdkit_properties provider smiles with
    | none => rw [hg] at hv; cases hv
    | some props =>
      rw [hg] at hv
      by_cases he : props.hasKey "error"
      · simp [he] at hv
      · simp [he] at hv
        simp [← hv]

/-- Witness for C5 on a transport failure and on a rejected status. -/
theorem ligand_extraction_contract_witness :
    extract_ligand_features (fun _ => .transportError) (some "CCO") = none ∧
    extract_ligand_features (fun _ => .response 500 ⟨[]⟩) (some "CCO") = none :=
  ⟨(ligand_extraction_contract (fun _ => .transportError) (some "CCO")).1 rfl,
   (ligand_extraction_contract (fun _ => .response 500 ⟨[]⟩) (some "CCO")).2.1
      500 ⟨[]⟩ rfl (by decide)⟩

/-- C6: protein extraction fails exactly when the underlying analyzer
computation raises; whenever the analyzer succeeds (as it does on
standard amino-acid sequences) the result is the fixed 5-vector
[molecular_weight, aromaticity, instability_index, isoelectric_point,
gravy], and every success has 5 elements. -/
theorem protein_extraction_contract (A : Analyzer) (s : String) :
    (extract_protein_features A s = none ↔ A s = none) ∧
    (∀ a, A s = some a → extract_protein_features A s =
      some [a.molecular_weight, a.aromaticity, a.instability_index,
            a.isoelectric_point, a.gravy]) ∧
    (∀ v, extract_protein_features A s = some v → v.length = 5) := by
  refine ⟨?_, fun a h => by simp [extract_protein_features, h], fun v hv => ?_⟩
  · cases h : A s <;> simp [extract_protein_features, h]
  · unfold extract_protein_features at hv
    cases h : A s with
    | none => rw [h] at hv; cases hv
    | some a =>
      rw [h] at hv
      simp at hv
      simp [← hv]

/-- Witness for C6 with an analyzer that succeeds on the sample sequence. -/
theorem protein_extraction_contract_witness :
    extract_protein_features (fun _ => some ⟨1, 2, 3, 4, 5⟩) "MKTIIALSYIFCLVFA" =
      some [1, 2, 3, 4, 5] :=
  (protein_extraction_contract (fun _ => some ⟨1, 2, 3, 4, 5⟩)
    "MKTIIALSYIFCLVFA").2.1 ⟨1, 2, 3, 4, 5⟩ rfl

/-- C7: an empty protein text input resolves to the empty sequence; when
the analyzer raises on the empty sequence (Biopython divides by the
sequence length), extraction fails, the report is the protein-side error
whenever the ligand side succeeded, and no prediction is produced. -/
theorem empty_sequence_invalid_protein (A : Analyzer) (hA : A "" = none)
    (lf : Option (List ℚ)) :
    (∀ u : String → Option String, resolve_protein_input u none "" = .direct "") ∧
    extract_protein_features A "" = none ∧
    (lf ≠ none → ∀ m : Model,
      predict_button m lf (extract_protein_features A "") = .invalidProtein) ∧
    (∀ (m : Model) (e : ℚ),
      predict_button m lf (extract_protein_features A "") ≠ .ok e) := by
  have hext : extract_protein_features A "" = none := by
    simp [extract_protein_features, hA]
  refine ⟨fun u => ?_, hext, fun hlf m => ?_, fun m e => ?_⟩
  · simp only [resolve_protein_input]
    rw [if_neg (by simp)]
    decide
  · rw [hext]
    cases lf with
    | none => exact absurd rfl hlf
    | some l => rfl
  · rw [hext]
    cases lf <;> simp [predict_button]

/-- Witness for C7 with an analyzer raising exactly on the empty string. -/
theorem empty_sequence_invalid_protein_witness :
    predict_button (fun _ => (0 : ℚ)) (some [1, 2, 3, 4])
      (extract_protein_features
        (fun s => if s = "" then none else some ⟨1, 1, 1, 1, 1⟩) "") =
      .invalidProtein :=
  (empty_sequence_invalid_protein
    (fun s => if s = "" then none else some ⟨1, 1, 1, 1, 1⟩) (by simp)
    (some [1, 2, 3, 4])).2.2.1 (by simp) (fun _ => 0)

/-- C8: when the model artifact is missing the page run halts at the
error: whatever the inputs, the collaborators and the button state, the
outcome is `modelUnavailable` and never an interactive outcome. -/
theorem model_unavailable_halts (model : Model)
    (chembl : String → Option String) (provider : RdkitProvider)
    (A : Analyzer) (uniprot : String → Option String) (ligand_input : String)
    (protein_file : Option (Option String)) (protein_input : String)
    (button_pressed : Bool) :
    load_binding_affinity_predictor false model chembl provider A uniprot
      ligand_input protein_file protein_input button_pressed =
      .modelUnavailable ∧
    (∀ o, load_binding_affinity_predictor false model chembl provider A uniprot
      ligand_input protein_file protein_input button_pressed ≠ .interactive o) :=
  ⟨rfl, fun o h => by cases h⟩

/-- Witness for C8 at concrete inputs. -/
theorem model_unavailable_halts_witness :
    load_binding_affinity_predictor false (fun _ => 0) (fun _ => none)
      (fun _ => .transportError) (fun _ => none) (fun _ => none)
      "CCO" none "MKT" true = .modelUnavailable :=
  (model_unavailable_halts (fun _ => 0) (fun _ => none) (fun _ => .transportError)
    (fun _ => none) (fun _ => none) "CCO" none "MKT" true).1

/-- C9: with no uploaded file, every non-empty protein text whose
stripped length is at most 10 is routed to the UniProt lookup on the
stripped text, never used directly as a raw sequence. -/
theorem short_protein_text_routed_to_uniprot (uniprot : String → Option String)
    (text : String) (hne : text ≠ "") (hlen : (pyStrip text).length ≤ 10) :
    resolve_protein_input uniprot none text =
      .fromUniprot (pyStrip text) (uniprot (pyStrip text)) ∧
    (∀ s, resolve_protein_input uniprot none text ≠ .direct s) := by
  have hcond : text ≠ "" ∧ (pyStrip text).length ≤ 10 := ⟨hne, hlen⟩
  have heq : resolve_protein_input uniprot none text =
      .fromUniprot (pyStrip text) (uniprot (pyStrip text)) := by
    simp only [resolve_protein_input, if_pos hcond]
  exact ⟨heq, fun s h => by rw [heq] at h; cases h⟩

/-- Witness for C9 at the spec's sample accession "P25089" (6 characters,
so at most 10 once stripped). -/
theorem short_protein_text_routed_to_uniprot_witness :
    resolve_protein_input (fun _ => none) none "P25089" =
      .fromUniprot (pyStrip "P25089") none :=
  (short_protein_text_routed_to_uniprot (fun _ => none) "P25089"
    (by decide) (by decide)).1

/-- C10: a 200-response without an "error" key never fails, even with
named fields missing: a 4-vector is returned with every absent field
read as 0. -/
theorem missing_ligand_fields_default_zero (provider : RdkitProvider)
    (smiles : Option String) (body : Json)
    (hresp : provider smiles = .response 200 body)
    (herr : body.hasKey "error" = false) :
    extract_ligand_features provider smiles =
      some [body.get "MolWt" 0, body.get "LogP" 0, body.get "TPSA" 0,
            body.get "NumRotatableBonds" 0] ∧
    (∀ k, body.hasKey k = false → body.get k 0 = 0) := by
  constructor
  · simp [extract_ligand_features, get_rdkit_properties, hresp, herr]
  · intro k hk
    unfold Json.get
    cases h : body.fields.find? (fun p => p.1 == k) with
    | none => rfl
    | some p =>
      exfalso
      have hpred := List.find?_some h
      have hmem : p ∈ body.fields := List.mem_of_find?_eq_some h
      have h1 : body.fields.any (fun q => q.1 == k) = true :=
        List.any_eq_true.mpr ⟨p, hmem, hpred⟩
      rw [Json.hasKey] at hk
      rw [hk] at h1
      cases h1

/-- Witness for C10: a body carrying only "LogP" still yields a
4-vector, with the three missing fields defaulted to 0. -/
theorem missing_ligand_fields_default_zero_witness :
    extract_ligand_features (fun _ => .response 200 ⟨[("LogP", 2)]⟩)
      (some "CCO") = some [0, 2, 0, 0] :=
  (missing_ligand_fields_default_zero (fun _ => .response 200 ⟨[("LogP", 2)]⟩)
    (some "CCO") ⟨[("LogP", 2)]⟩ rfl (by decide)).1

end BioStructX
